import Mathlib

/-!
Verification of the multi-ratio crop/export engine (`src/components/ImageEditor.tsx`)
and the stock-image search fallback chain (`generateStockImages` in the service file)
of the YasashiToast/idea repository, as a shallow embedding in Lean 4.

Conventions of the embedding:
* JS `number` values that the component treats as continuous (pan offsets, zoom
  factors) are modelled as `Rat`; pixel-space crop rectangles (`croppedAreaPixels`,
  delivered by the cropping primitive in rounded source-pixel coordinates) are
  modelled with `Nat` fields.
* Browser effects (DOM downloads, console logging, alerts, timer sleeps) are
  recorded as an explicit event list.
* Fallible external calls (image decode, 2d-context allocation, PNG encode,
  provider HTTP fetches) are driven by explicit environment records so that every
  outcome the code can observe is quantified over.
* JS exceptions are modelled with `Except String`: a `.error` is an exception in
  flight; `try`/`catch` is an explicit `match` on that `Except`.
-/

/-! ## Data model (ImageEditor.tsx lines 9-31) -/

/-- The three aspect ratios of `RATIO_CONFIG` / `enum AspectRatio`. -/
inductive AspectRatio where
  | LANDSCAPE
  | CINEMATIC
  | SQUARE
deriving DecidableEq

/-- The `Point` of react-easy-crop: a pan offset. -/
structure Point where
  x : Rat
  y : Rat
deriving DecidableEq

/-- An `Area`: a crop rectangle in source-pixel space (rounded integer pixels). -/
structure Area where
  x : Nat
  y : Nat
  width : Nat
  height : Nat
deriving DecidableEq

/-- The `interface CropState` (lines 21-25). -/
structure CropState where
  crop : Point
  zoom : Rat
  croppedAreaPixels : Option Area
deriving DecidableEq

/-- The constant `INITIAL_STATE` (lines 27-31). -/
def INITIAL_STATE : CropState :=
  { crop := { x := 0, y := 0 }, zoom := 1, croppedAreaPixels := none }

/-- The `cropStates` record: one `CropState` per aspect ratio (lines 44-48).
The source keys a `Record<number, CropState>` by the three distinct numeric
ratio values; a fixed three-field structure models that finite map. -/
structure CropStates where
  landscape : CropState
  cinematic : CropState
  square : CropState
deriving DecidableEq

def CropStates.get (s : CropStates) : AspectRatio → CropState
  | .LANDSCAPE => s.landscape
  | .CINEMATIC => s.cinematic
  | .SQUARE => s.square

def CropStates.set (s : CropStates) : AspectRatio → CropState → CropStates
  | .LANDSCAPE, c => { s with landscape := c }
  | .CINEMATIC, c => { s with cinematic := c }
  | .SQUARE, c => { s with square := c }

/-- The `useState` initializer (lines 44-48): every ratio starts at `INITIAL_STATE`. -/
def initialCropStates : CropStates :=
  { landscape := INITIAL_STATE, cinematic := INITIAL_STATE, square := INITIAL_STATE }

/-- A `Partial<CropState>`: the `updates` argument of `updateCropState`. A `none`
field is absent from the JS object literal and leaves the old value in place. -/
structure CropStateUpdate where
  crop : Option Point := none
  zoom : Option Rat := none
  croppedAreaPixels : Option (Option Area) := none

/-- The spread `{ ...prev[ratio], ...updates }` (line 64). -/
def applyUpdate (s : CropState) (u : CropStateUpdate) : CropState :=
  { crop := u.crop.getD s.crop
    zoom := u.zoom.getD s.zoom
    croppedAreaPixels := u.croppedAreaPixels.getD s.croppedAreaPixels }

/-- The function `updateCropState` (lines 61-66): replace the entry for `ratio` by its merge
with `updates`; entries for the other ratios are spread through unchanged. -/
def updateCropState (states : CropStates) (ratio : AspectRatio) (u : CropStateUpdate) :
    CropStates :=
  states.set ratio (applyUpdate (states.get ratio) u)

/-- The `onCropChange` wiring (line 180): the spec's `setPan`. -/
def setPan (states : CropStates) (ratio : AspectRatio) (p : Point) : CropStates :=
  updateCropState states ratio { crop := some p }

/-- The `onZoomChange` / slider `onChange` wiring (lines 181, 200): the spec's `setZoom`. -/
def setZoom (states : CropStates) (ratio : AspectRatio) (z : Rat) : CropStates :=
  updateCropState states ratio { zoom := some z }

/-- The `onCropComplete` wiring (line 182): the spec's `setCropRectangle`. -/
def setCropRectangle (states : CropStates) (ratio : AspectRatio) (a : Area) : CropStates :=
  updateCropState states ratio { croppedAreaPixels := some (some a) }

/-- Component-level state: the `imageUrl` prop, the `cropStates` record and the
`isProcessing` flag (lines 42-50). -/
structure EditorState where
  imageUrl : String
  cropStates : CropStates
  isProcessing : Bool
deriving DecidableEq

/-- The `useEffect` on `[imageUrl]` (lines 52-59): when the source image
reference changes, one `setCropStates` call rebuilds the whole record with
`INITIAL_STATE` for all three ratios. -/
def changeImage (st : EditorState) (newUrl : String) : EditorState :=
  { imageUrl := newUrl, cropStates := initialCropStates, isProcessing := st.isProcessing }

/-! ## Basic state-manager lemmas -/

theorem CropStates.get_set_same (s : CropStates) (r : AspectRatio) (c : CropState) :
    (s.set r c).get r = c := by
  cases r <;> rfl

theorem CropStates.get_set_other (s : CropStates) (r r' : AspectRatio) (c : CropState)
    (h : r' ≠ r) : (s.set r c).get r' = s.get r' := by
  cases r <;> cases r' <;> first | rfl | exact absurd rfl h

theorem updateCropState_get_other (s : CropStates) (r r' : AspectRatio)
    (u : CropStateUpdate) (h : r' ≠ r) :
    (updateCropState s r u).get r' = s.get r' :=
  CropStates.get_set_other s r r' _ h

theorem updateCropState_get_same (s : CropStates) (r : AspectRatio) (u : CropStateUpdate) :
    (updateCropState s r u).get r = applyUpdate (s.get r) u :=
  CropStates.get_set_same s r _

/-! ## Claim C1: per-ratio independence -/

/-- C1: for every aspect ratio `r` and every mutation of `r`'s crop state
(`setPan`, `setZoom`, or `setCropRectangle`), the `CropState` of every other
ratio `r'` — its recorded crop rectangle included, since the whole `CropState`
record is equal — is unchanged. -/
theorem cropState_independence (states : CropStates) (r r' : AspectRatio)
    (p : Point) (z : Rat) (a : Area) (h : r' ≠ r) :
    (setPan states r p).get r' = states.get r' ∧
    (setZoom states r z).get r' = states.get r' ∧
    (setCropRectangle states r a).get r' = states.get r' :=
  ⟨updateCropState_get_other states r r' _ h,
   updateCropState_get_other states r r' _ h,
   updateCropState_get_other states r r' _ h⟩

/-- Witness for C1: mutating the wide ratio leaves the square ratio's state intact. -/
theorem cropState_independence_witness :
    AspectRatio.SQUARE ≠ AspectRatio.LANDSCAPE ∧
    ((setPan initialCropStates .LANDSCAPE { x := 1, y := 2 }).get .SQUARE =
        initialCropStates.get .SQUARE ∧
      (setZoom initialCropStates .LANDSCAPE 2).get .SQUARE = initialCropStates.get .SQUARE ∧
      (setCropRectangle initialCropStates .LANDSCAPE ⟨0, 0, 10, 10⟩).get .SQUARE =
        initialCropStates.get .SQUARE) :=
  ⟨by decide,
   cropState_independence initialCropStates .LANDSCAPE .SQUARE
     { x := 1, y := 2 } 2 ⟨0, 0, 10, 10⟩ (by decide)⟩

/-! ## Claim C7: zoom bound -/

/-- C7 counterexample: `updateCropState` stores the zoom value it is given
without clamping, so a `setZoom` with the out-of-range value 5 records a zoom
of 5, which violates the claimed bound `[1, 3]`. -/
theorem setZoom_no_clamp_counterexample :
    ((setZoom initialCropStates .LANDSCAPE 5).get .LANDSCAPE).zoom = 5 ∧
    ¬ (((setZoom initialCropStates .LANDSCAPE 5).get .LANDSCAPE).zoom ≤ 3) := by
  constructor
  · rfl
  · intro h
    have : ((setZoom initialCropStates .LANDSCAPE 5).get .LANDSCAPE).zoom = 5 := rfl
    rw [this] at h
    norm_num at h

/-- C7 amended: `setZoom` stores its argument verbatim, so the stored zoom lies
in `[1, 3]` exactly when the provided factor does; the bound is enforced by the
callers (the slider's `min={1} max={3}` attributes and the cropping primitive's
zoom limits), not by the state manager. -/
theorem setZoom_stores_given_value (states : CropStates) (r : AspectRatio) (z : Rat)
    (h1 : 1 ≤ z) (h3 : z ≤ 3) :
    ((setZoom states r z).get r).zoom = z ∧
    1 ≤ ((setZoom states r z).get r).zoom ∧ ((setZoom states r z).get r).zoom ≤ 3 := by
  have hz : ((setZoom states r z).get r).zoom = z := by
    rw [setZoom, updateCropState_get_same]
    rfl
  exact ⟨hz, by rw [hz]; exact h1, by rw [hz]; exact h3⟩

/-- Witness for the amended C7 at the in-range zoom factor 2. -/
theorem setZoom_stores_given_value_witness :
    (1 : Rat) ≤ 2 ∧ (2 : Rat) ≤ 3 ∧
    (((setZoom initialCropStates .CINEMATIC 2).get .CINEMATIC).zoom = 2 ∧
      1 ≤ ((setZoom initialCropStates .CINEMATIC 2).get .CINEMATIC).zoom ∧
      ((setZoom initialCropStates .CINEMATIC 2).get .CINEMATIC).zoom ≤ 3) :=
  ⟨by norm_num, by norm_num,
   setZoom_stores_given_value initialCropStates .CINEMATIC 2 (by norm_num) (by norm_num)⟩

/-! ## Rasterizer (`generateBlob`, lines 68-97)

An in-memory image or canvas surface is a width, a height and a pixel function
(colour values as `Nat`). The canvas `drawImage(image, sx, sy, sw, sh, dx, dy,
dw, dh)` call paints the source region onto the destination rectangle, sampling
the source when the two rectangles differ in size; `generateBlob` calls it with
equal source and destination sizes. The external fallible steps — image decode
(`createImage`), `getContext('2d')`, `canvas.toBlob` — are driven by a
`CanvasEnv` record of outcomes. A PNG blob is lossless, so the blob content is
modelled as the encoded surface itself. -/

structure SourceImage where
  width : Nat
  height : Nat
  pixel : Nat → Nat → Nat

structure Surface where
  width : Nat
  height : Nat
  pixel : Nat → Nat → Nat

/-- A freshly created canvas of the given dimensions (transparent pixels). -/
def blankSurface (w h : Nat) : Surface :=
  { width := w, height := h, pixel := fun _ _ => 0 }

/-- Canvas `drawImage` with explicit source and destination rectangles:
destination pixel `(i, j)` inside the destination rectangle is sampled from the
source region, scaled by the ratio of the region sizes. -/
def drawImage (dst : Surface) (img : SourceImage)
    (sx sy sw sh dx dy dw dh : Nat) : Surface :=
  { dst with
    pixel := fun i j =>
      if dx ≤ i ∧ i < dx + dw ∧ dy ≤ j ∧ j < dy + dh then
        img.pixel (sx + (i - dx) * sw / dw) (sy + (j - dy) * sh / dh)
      else dst.pixel i j }

/-- Outcomes of the external canvas/image operations inside one `generateBlob` run. -/
structure CanvasEnv where
  decodeOk : Bool
  ctxOk : Bool
  encodeOk : Bool

/-- Browser console / DOM effects observable from the component. -/
inductive Event where
  | download (filename : String)
  | consoleError (msg : String)
  | consoleWarn (msg : String)
  | alert (msg : String)
  | sleep (ms : Nat)
deriving DecidableEq

/-- The function `generateBlob` (lines 68-97): decode the source image, allocate a canvas of
exactly the crop rectangle's dimensions, `drawImage` the region
`[x, y, width, height]` to offset `(0, 0)` with equal source/destination sizes,
and PNG-encode.  Every failure is caught inside the function (the `try`/`catch`
around decode, the `if (!ctx)` guard, the `toBlob` null callback) and becomes a
`none` result; only the decode rejection path logs. -/
def generateBlobRun (cenv : CanvasEnv) (img : SourceImage) (a : Area) :
    List Event × Option Surface :=
  if cenv.decodeOk = false then
    ([Event.consoleError "createImage"], none)
  else if cenv.ctxOk = false then
    ([], none)
  else
    let canvas := drawImage (blankSurface a.width a.height) img
      a.x a.y a.width a.height 0 0 a.width a.height
    if cenv.encodeOk then ([], some canvas) else ([], none)

/-! ## Claim C2: the rasterizer is a pure crop -/

/-- C2: with decode, context allocation and encoding all succeeding, and a crop
rectangle fully inside the source bounds, `generateBlob` produces a blob whose
surface is exactly `width × height`, and each pixel `(i, j)` of it is the
source pixel `(x + i, y + j)` — a pure unscaled copy to offset `(0, 0)`. -/
theorem generateBlob_pure_crop (cenv : CanvasEnv) (img : SourceImage) (a : Area)
    (i j : Nat)
    (hdec : cenv.decodeOk = true) (hctx : cenv.ctxOk = true) (henc : cenv.encodeOk = true)
    (hx : a.x + a.width ≤ img.width) (hy : a.y + a.height ≤ img.height)
    (hi : i < a.width) (hj : j < a.height) :
    (generateBlobRun cenv img a).2.map Surface.width = some a.width ∧
    (generateBlobRun cenv img a).2.map Surface.height = some a.height ∧
    (generateBlobRun cenv img a).2.map (fun s => s.pixel i j) =
      some (img.pixel (a.x + i) (a.y + j)) ∧
    (generateBlobRun cenv img a).1 = [] := by
  have hw : 0 < a.width := Nat.zero_lt_of_lt hi
  have hh : 0 < a.height := Nat.zero_lt_of_lt hj
  simp only [generateBlobRun, hdec, hctx, henc, if_true]
  norm_num
  refine ⟨rfl, rfl, ?_⟩
  simp only [drawImage, blankSurface]
  have hcond : 0 ≤ i ∧ i < 0 + a.width ∧ 0 ≤ j ∧ j < 0 + a.height := by
    exact ⟨Nat.zero_le _, by omega, Nat.zero_le _, by omega⟩
  rw [if_pos hcond]
  congr 1
  · rw [Nat.sub_zero, Nat.mul_div_cancel i hw]
  · rw [Nat.sub_zero, Nat.mul_div_cancel j hh]

/-- Witness for C2: crop the rectangle at `(1, 0)` of size `2 × 2` out of a
`3 × 2` test image whose pixel at `(x, y)` is `x + 10 * y`. -/
theorem generateBlob_pure_crop_witness :
    ((⟨true, true, true⟩ : CanvasEnv).decodeOk = true ∧ (1 : Nat) + 2 ≤ 3 ∧
      (0 : Nat) + 2 ≤ 2 ∧ (1 : Nat) < 2) ∧
    ((generateBlobRun ⟨true, true, true⟩ ⟨3, 2, fun x y => x + 10 * y⟩
        ⟨1, 0, 2, 2⟩).2.map Surface.width = some 2 ∧
      (generateBlobRun ⟨true, true, true⟩ ⟨3, 2, fun x y => x + 10 * y⟩
        ⟨1, 0, 2, 2⟩).2.map Surface.height = some 2 ∧
      (generateBlobRun ⟨true, true, true⟩ ⟨3, 2, fun x y => x + 10 * y⟩
        ⟨1, 0, 2, 2⟩).2.map (fun s => s.pixel 1 1) = some ((fun x y => x + 10 * y) (1 + 1) (0 + 1)) ∧
      (generateBlobRun ⟨true, true, true⟩ ⟨3, 2, fun x y => x + 10 * y⟩
        ⟨1, 0, 2, 2⟩).1 = []) :=
  ⟨⟨rfl, by norm_num, by norm_num, by norm_num⟩,
   generateBlob_pure_crop ⟨true, true, true⟩ ⟨3, 2, fun x y => x + 10 * y⟩
     ⟨1, 0, 2, 2⟩ 1 1 rfl rfl rfl (by norm_num) (by norm_num) (by norm_num) (by norm_num)⟩

/-! ## Export orchestrator (`handleDownload` lines 99-122, `handleDownloadAll` lines 124-135)

`ExportEnv` fixes everything external one export interaction can observe: the
decoded source image, the per-ratio canvas outcomes (the batch loop calls
`generateBlob` once per ratio, each call with its own outcome), whether the
DOM download-triggering steps (`URL.createObjectURL` / `link.click`) throw, and
`Date.now()`. -/

structure ExportEnv where
  image : SourceImage
  canvas : AspectRatio → CanvasEnv
  downloadThrows : AspectRatio → Bool
  now : Nat

/-- The ternary chain of line 110. -/
def ratioName : AspectRatio → String
  | .LANDSCAPE => "16-9"
  | .CINEMATIC => "2.35-1"
  | .SQUARE => "1-1"

/-- The filename `cover-<ratioName>-<Date.now()>.png` of line 111. -/
def downloadFilename (r : AspectRatio) (now : Nat) : String :=
  "cover-" ++ ratioName r ++ "-" ++ toString now ++ ".png"

/-- The body of `handleDownload`'s `try` block after `generateBlob` resolved
(lines 106-115): when the blob is non-null, run the DOM download steps, which
may throw; a null blob skips the `if (blob)` body without any effect. -/
def downloadAttempt (env : ExportEnv) (ratio : AspectRatio) (blob : Option Surface) :
    Except String (List Event) :=
  match blob with
  | some _blob =>
      if env.downloadThrows ratio then .error "download step threw"
      else .ok [Event.download (downloadFilename ratio env.now)]
  | none => .ok []

/-- The `catch` of lines 116-118: any exception from the `try` block is
consumed, `"Download failed"` is logged, and the alert is shown only when
`single`. `logged` is whatever `generateBlob` already printed. -/
def catchDownload (single : Bool) (logged : List Event)
    (tryRes : Except String (List Event)) : List Event :=
  match tryRes with
  | .ok evts => logged ++ evts
  | .error _ =>
      logged ++ [Event.consoleError "Download failed"] ++
        (if single then [Event.alert "下载失败，请重试"] else [])

/-- The function `handleDownload` (lines 99-122).  The guard at line 101 returns before any
state change when no crop rectangle is recorded; otherwise the `try` block runs
under the `catch` above, and the `finally` resets `isProcessing` only when
`single`.  The function always returns normally, which the `Except` result
type makes checkable. -/
def handleDownloadE (env : ExportEnv) (st : EditorState) (ratio : AspectRatio)
    (single : Bool) : Except String (List Event × EditorState) :=
  match (st.cropStates.get ratio).croppedAreaPixels with
  | none => .ok ([], st)
  | some pixels =>
    let st1 := if single then { st with isProcessing := true } else st
    let gb := generateBlobRun (env.canvas ratio) env.image pixels
    let st2 := if single then { st1 with isProcessing := false } else st1
    .ok (catchDownload single gb.1 (downloadAttempt env ratio gb.2), st2)

/-- The `for`/`await` loop of `handleDownloadAll` (lines 127-131), with the
promise `bind` written out: an exception from an awaited `handleDownload`
would abort the remaining iterations and propagate; each completed iteration
appends its events and the 500 ms sleep. -/
def handleDownloadAllBody (env : ExportEnv) (st0 : EditorState) :
    Except String (List Event × EditorState) :=
  match handleDownloadE env st0 .LANDSCAPE false with
  | .error e => .error e
  | .ok (e1, st1) =>
    match handleDownloadE env st1 .CINEMATIC false with
    | .error e => .error e
    | .ok (e2, st2) =>
      match handleDownloadE env st2 .SQUARE false with
      | .error e => .error e
      | .ok (e3, st3) =>
        .ok (e1 ++ [Event.sleep 500] ++ e2 ++ [Event.sleep 500] ++
          e3 ++ [Event.sleep 500], st3)

/-- The function `handleDownloadAll` (lines 124-135): set the processing flag, run the loop,
and clear the flag in the `finally`, which also runs when the body throws, the
exception then propagating to the caller. -/
def handleDownloadAllE (env : ExportEnv) (st : EditorState) :
    Except String (List Event × EditorState) :=
  match handleDownloadAllBody env { st with isProcessing := true } with
  | .ok (evts, st') => .ok (evts, { st' with isProcessing := false })
  | .error e => .error e

/-- Events of an export run (empty when an exception escaped). -/
def eventsOf (r : Except String (List Event × EditorState)) : List Event :=
  match r with
  | .ok (evts, _) => evts
  | .error _ => []

/-- Whether an export run returned normally (no exception to the caller). -/
def isOkE (r : Except String (List Event × EditorState)) : Bool :=
  match r with
  | .ok _ => true
  | .error _ => false

def hasAlert (l : List Event) : Bool :=
  l.any fun e => match e with | .alert _ => true | _ => false

def hasDownload (l : List Event) : Bool :=
  l.any fun e => match e with | .download _ => true | _ => false

/-- The rasterizer `generateBlob` itself emits no alert and triggers no download. -/
theorem generateBlobRun_events_silent (cenv : CanvasEnv) (img : SourceImage) (a : Area) :
    hasAlert (generateBlobRun cenv img a).1 = false ∧
    hasDownload (generateBlobRun cenv img a).1 = false := by
  rcases cenv with ⟨d, c, e⟩
  cases d <;> cases c <;> cases e <;> simp [generateBlobRun, hasAlert, hasDownload]

/-- A batch-mode `handleDownload` call returns normally and leaves the
component state untouched. -/
theorem handleDownloadE_batch_ok (env : ExportEnv) (st : EditorState) (r : AspectRatio) :
    ∃ e, handleDownloadE env st r false = .ok (e, st) := by
  unfold handleDownloadE
  cases hc : (st.cropStates.get r).croppedAreaPixels with
  | none => exact ⟨[], rfl⟩
  | some a => exact ⟨_, rfl⟩

/-! ## Claim C4: absent crop rectangle means silent no-op -/

/-- C4: when the ratio's `CropState` records no crop rectangle,
`handleDownload` returns normally with no events (no file, no download, no
alert, no log) and the state unchanged, whether invoked standalone or from the
batch loop. -/
theorem handleDownload_noCropRect (env : ExportEnv) (st : EditorState)
    (ratio : AspectRatio) (single : Bool)
    (h : (st.cropStates.get ratio).croppedAreaPixels = none) :
    handleDownloadE env st ratio single = .ok ([], st) := by
  unfold handleDownloadE
  rw [h]

/-- An all-succeeding environment over a blank 4×4 test image. -/
def okEnv : ExportEnv :=
  { image := ⟨4, 4, fun _ _ => 0⟩
    canvas := fun _ => ⟨true, true, true⟩
    downloadThrows := fun _ => false
    now := 1700000000000 }

/-- The editor state right after mount: no ratio has a crop rectangle yet. -/
def freshEditor : EditorState :=
  { imageUrl := "img.png", cropStates := initialCropStates, isProcessing := false }

/-- Witness for C4: a single export of the wide ratio on a fresh editor is a
silent no-op. -/
theorem handleDownload_noCropRect_witness :
    (freshEditor.cropStates.get .LANDSCAPE).croppedAreaPixels = none ∧
    handleDownloadE okEnv freshEditor .LANDSCAPE true = .ok ([], freshEditor) :=
  ⟨rfl, handleDownload_noCropRect okEnv freshEditor .LANDSCAPE true rfl⟩

/-! ## Claim C3: batch export attempts exactly three ratios in order -/

/-- C3: `handleDownloadAll` runs, for every environment — including ones in
which any subset of the rasterizations or download steps fail — exactly the
three per-ratio export attempts with `single = false`, in the fixed order
LANDSCAPE (16:9), CINEMATIC (2.35:1), SQUARE (1:1), each followed by the 500 ms
pause; it returns `.ok` (never an exception to its caller) and its event list
is exactly the concatenation of the three attempts' events, so a failing ratio
does not abort the remaining attempts. -/
theorem handleDownloadAll_three_attempts (env : ExportEnv) (st : EditorState) :
    ∃ eW eC eS,
      handleDownloadE env { st with isProcessing := true } .LANDSCAPE false =
        .ok (eW, { st with isProcessing := true }) ∧
      handleDownloadE env { st with isProcessing := true } .CINEMATIC false =
        .ok (eC, { st with isProcessing := true }) ∧
      handleDownloadE env { st with isProcessing := true } .SQUARE false =
        .ok (eS, { st with isProcessing := true }) ∧
      handleDownloadAllE env st =
        .ok (eW ++ [Event.sleep 500] ++ eC ++ [Event.sleep 500] ++ eS ++ [Event.sleep 500],
          { st with isProcessing := false }) := by
  obtain ⟨eW, hW⟩ := handleDownloadE_batch_ok env { st with isProcessing := true } .LANDSCAPE
  obtain ⟨eC, hC⟩ := handleDownloadE_batch_ok env { st with isProcessing := true } .CINEMATIC
  obtain ⟨eS, hS⟩ := handleDownloadE_batch_ok env { st with isProcessing := true } .SQUARE
  refine ⟨eW, eC, eS, hW, hC, hS, ?_⟩
  unfold handleDownloadAllE handleDownloadAllBody
  simp only [hW, hC, hS]

/-! ## Claim C6: single-export rasterization failure shows no notice -/

/-- An environment in which image decode fails for every ratio. -/
def decodeFailEnv : ExportEnv :=
  { image := ⟨4, 4, fun _ _ => 0⟩
    canvas := fun _ => ⟨false, true, true⟩
    downloadThrows := fun _ => false
    now := 1700000000000 }

/-- A crop state for the wide ratio with a recorded `4 × 4` crop rectangle. -/
def wideCropState : CropState :=
  { crop := { x := 0, y := 0 }, zoom := 1, croppedAreaPixels := some ⟨0, 0, 4, 4⟩ }

/-- An editor state whose wide ratio has a recorded crop rectangle. -/
def wideCroppedEditor : EditorState :=
  { imageUrl := "a.png"
    cropStates :=
      { landscape := wideCropState, cinematic := INITIAL_STATE, square := INITIAL_STATE }
    isProcessing := false }

/-- C6 counterexample: a single manual export (`single = true`) of a ratio with
a crop rectangle, whose rasterization fails at image decode, produces exactly
one console log and nothing else — in particular the user-visible alert of line
118 is not among the emitted events, refuting the claim that single-export
rasterization failure surfaces a user-visible notice. -/
theorem handleDownload_singleFailure_counterexample :
    handleDownloadE decodeFailEnv wideCroppedEditor .LANDSCAPE true =
      .ok ([Event.consoleError "createImage"], wideCroppedEditor) ∧
    Event.alert "下载失败，请重试" ∉ [Event.consoleError "createImage"] := by
  constructor
  · rfl
  · decide

/-- C6 amended: a rasterization failure (decode, context allocation, or encode)
never surfaces an alert and never triggers a download, in single and batch mode
alike; `generateBlob` swallows the failure into a `null` blob, `handleDownload`
skips the `if (blob)` body, and the `catch` containing the alert is reached
only if the DOM download steps themselves throw. -/
theorem handleDownload_rasterFailure_silent (env : ExportEnv) (st : EditorState)
    (r : AspectRatio) (single : Bool) (a : Area)
    (hcrop : (st.cropStates.get r).croppedAreaPixels = some a)
    (hfail : (generateBlobRun (env.canvas r) env.image a).2.isNone = true) :
    isOkE (handleDownloadE env st r single) = true ∧
    hasAlert (eventsOf (handleDownloadE env st r single)) = false ∧
    hasDownload (eventsOf (handleDownloadE env st r single)) = false := by
  have h2 : (generateBlobRun (env.canvas r) env.image a).2 = none :=
    Option.isNone_iff_eq_none.mp hfail
  have hev := generateBlobRun_events_silent (env.canvas r) env.image a
  simp only [handleDownloadE, hcrop, h2, downloadAttempt, catchDownload,
    List.append_nil, isOkE, eventsOf]
  exact ⟨trivial, hev.1, hev.2⟩

/-- Witness for the amended C6: the decode-failure single export of the wide
ratio returns normally with no alert and no download. -/
theorem handleDownload_rasterFailure_silent_witness :
    (wideCroppedEditor.cropStates.get .LANDSCAPE).croppedAreaPixels = some ⟨0, 0, 4, 4⟩ ∧
    (generateBlobRun (decodeFailEnv.canvas .LANDSCAPE) decodeFailEnv.image
      ⟨0, 0, 4, 4⟩).2.isNone = true ∧
    (isOkE (handleDownloadE decodeFailEnv wideCroppedEditor .LANDSCAPE true) = true ∧
      hasAlert (eventsOf (handleDownloadE decodeFailEnv wideCroppedEditor .LANDSCAPE true)) =
        false ∧
      hasDownload (eventsOf (handleDownloadE decodeFailEnv wideCroppedEditor .LANDSCAPE true)) =
        false) :=
  ⟨rfl, rfl,
   handleDownload_rasterFailure_silent decodeFailEnv wideCroppedEditor .LANDSCAPE true
     ⟨0, 0, 4, 4⟩ rfl rfl⟩

/-! ## Claim C5: changing the source image resets every ratio -/

/-- C5: when the `imageUrl` prop changes, the effect of lines 52-59 rebuilds
the whole `cropStates` record in one `setCropStates` call: every ratio is back
at the default (zoom 1, pan `(0, 0)`, crop rectangle absent), and an export
requested for the new image before any new interaction is a silent no-op — no
crop rectangle recorded for the previous image survives to be exported. -/
theorem imageChange_resets_all (st : EditorState) (url : String) (env : ExportEnv)
    (r : AspectRatio) (single : Bool) :
    (changeImage st url).cropStates.get r = INITIAL_STATE ∧
    ((changeImage st url).cropStates.get r).zoom = 1 ∧
    ((changeImage st url).cropStates.get r).crop = { x := 0, y := 0 } ∧
    ((changeImage st url).cropStates.get r).croppedAreaPixels = none ∧
    handleDownloadE env (changeImage st url) r single = .ok ([], changeImage st url) := by
  have hr : (changeImage st url).cropStates.get r = INITIAL_STATE := by
    cases r <;> rfl
  have hnone : ((changeImage st url).cropStates.get r).croppedAreaPixels = none := by
    rw [hr]; rfl
  refine ⟨hr, by rw [hr]; rfl, by rw [hr]; rfl, hnone, ?_⟩
  unfold handleDownloadE
  rw [hnone]

/-! ## Stock search (`generateStockImages`, service file lines 145-207)

The function issues two fetches (Unsplash, then Pixabay when fewer than five
results have accumulated), each inside its own `try`/`catch`, and synthesizes
four LoremFlickr placeholder entries when the accumulated list is empty.  A
`ProviderOutcome` records everything one provider attempt can do to the caller:
the fetch rejecting (network), a non-ok HTTP status, `response.json()`
rejecting, the parsed JSON lacking the expected array (so `.map` / `.slice`
throws), or a successful list of items. -/

/-- The `enum ImageSource` of `types.ts`. -/
inductive ImageSource where
  | AI_GENERATION
  | GOOGLE_SEARCH
  | STOCK_LIBRARY
deriving DecidableEq

/-- The `interface ImageResult` of `types.ts`. -/
structure ImageResult where
  id : String
  url : String
  source : ImageSource
deriving DecidableEq

/-- The fields of one Unsplash result the code reads (`img.id`, `img.urls.regular`). -/
structure UnsplashImg where
  id : String
  regular : String
deriving DecidableEq

/-- The fields of one Pixabay hit the code reads (`img.id`, `img.largeImageURL`). -/
structure PixabayImg where
  id : String
  largeImageURL : String
deriving DecidableEq

/-- Everything one provider attempt can look like from the caller's side. -/
inductive ProviderOutcome (α : Type) where
  | fetchReject
  | httpError (status : Nat)
  | jsonReject
  | badShape
  | ok (items : List α)

/-- External outcomes of one `generateStockImages` call: the two provider
attempts and `Date.now()`. -/
structure StockEnv where
  unsplash : ProviderOutcome UnsplashImg
  pixabay : ProviderOutcome PixabayImg
  seedBase : Nat

/-- The query `keywords.slice(0, 2).join(' ')` of line 148. -/
def stockQuery (keywords : List String) : String :=
  " ".intercalate (keywords.take 2)

/-- JS `keywords[0]`: reading index 0 of an empty array yields `undefined`,
which string-interpolates as `"undefined"`. -/
def jsHead (keywords : List String) : String :=
  match keywords with
  | [] => "undefined"
  | k :: _ => k

/-- The characters `encodeURIComponent` leaves unescaped (alphanumerics and
`- _ . ! ~ * ' ( )`; code point 39 is the apostrophe). -/
def uriUnreserved (c : Char) : Bool :=
  c.isAlphanum || c = '-' || c = '_' || c = '.' || c = '!' || c = '~' || c = '*' ||
    c.toNat = 39 || c = '(' || c = ')'

def hexDigitChar (n : Nat) : Char :=
  if n < 10 then Char.ofNat (48 + n) else Char.ofNat (55 + n)

def percentEncodeByte (b : UInt8) : String :=
  String.mk ['%', hexDigitChar (b.toNat / 16), hexDigitChar (b.toNat % 16)]

/-- The JS builtin `encodeURIComponent`: unreserved characters pass through,
every other character is replaced by the percent-encoding of its UTF-8 bytes. -/
def encodeURIComponent (s : String) : String :=
  String.join (s.data.map fun c =>
    if uriUnreserved c then String.mk [c]
    else String.join ((String.mk [c]).toUTF8.toList.map percentEncodeByte))

/-- The Unsplash `try` block (lines 151-167) before its `catch`: a `.error` is
an exception in flight (fetch rejection, `json()` rejection, or `.map` on a
missing `results` array); a non-ok response only logs a warning and pushes
nothing. -/
def tryUnsplash (o : ProviderOutcome UnsplashImg) : Except String (List ImageResult) :=
  match o with
  | .fetchReject => .error "Unsplash fetch rejected"
  | .httpError _status => .ok []
  | .jsonReject => .error "Unsplash json rejected"
  | .badShape => .error "data.results is not an array"
  | .ok imgs =>
      .ok (imgs.map fun img =>
        { id := "unsplash-" ++ img.id, url := img.regular,
          source := ImageSource.STOCK_LIBRARY })

/-- The Pixabay `try` block (lines 174-189) before its `catch`: a non-ok
response pushes nothing; a good response contributes `hits.slice(0, needed)`. -/
def tryPixabay (needed : Nat) (o : ProviderOutcome PixabayImg) :
    Except String (List ImageResult) :=
  match o with
  | .fetchReject => .error "Pixabay fetch rejected"
  | .httpError _status => .ok []
  | .jsonReject => .error "Pixabay json rejected"
  | .badShape => .error "data.hits is not an array"
  | .ok hits =>
      .ok ((hits.take needed).map fun img =>
        { id := "pixabay-" ++ img.id, url := img.largeImageURL,
          source := ImageSource.STOCK_LIBRARY })

/-- A JS `try`/`catch`: run the body; a thrown exception goes to the handler. -/
def jsTry {α : Type} (body : Except String α) (handler : String → Except String α) :
    Except String α :=
  match body with
  | .ok a => .ok a
  | .error e => handler e

/-- What the Unsplash attempt contributes to `results` after its `catch`
(which only logs) has run. -/
def unsplashYield (o : ProviderOutcome UnsplashImg) : List ImageResult :=
  match tryUnsplash o with
  | .ok l => l
  | .error _ => []

/-- What the Pixabay attempt contributes to `results` after its `catch`. -/
def pixabayYield (needed : Nat) (o : ProviderOutcome PixabayImg) : List ImageResult :=
  match tryPixabay needed o with
  | .ok l => l
  | .error _ => []

/-- The `results` list accumulated from the two real providers (lines 146-193):
Unsplash first, then Pixabay only when fewer than 5 results are present, asked
for the `needed` remainder. -/
def realProviderResults (env : StockEnv) : List ImageResult :=
  let results1 := unsplashYield env.unsplash
  if results1.length < 5 then
    results1 ++ pixabayYield (5 - results1.length) env.pixabay
  else results1

/-- The LoremFlickr fallback loop (lines 196-204): four entries with
`lock = seedBase + i + page * 10` and the keyless placeholder URL. -/
def placeholderResults (seedBase page : Nat) (keywords : List String)
    (source : ImageSource) : List ImageResult :=
  (List.range 4).map fun i =>
    let lock := seedBase + i + page * 10
    { id := "backup-" ++ toString i ++ "-" ++ toString lock
      url := "https://loremflickr.com/1280/720/" ++ encodeURIComponent (jsHead keywords) ++
        "?lock=" ++ toString lock
      source := source }

/-- The function `generateStockImages` (lines 145-207), with both `catch`es already applied. -/
def generateStockImages (env : StockEnv) (keywords : List String) (source : ImageSource)
    (page : Nat) : List ImageResult :=
  let results2 := realProviderResults env
  if results2.length = 0 then
    placeholderResults env.seedBase page keywords source
  else results2

/-- A variant of `generateStockImages` with the exception flow explicit: each provider
attempt may throw, its own `catch` (which only logs) recovers, and a `.error`
result would be a rejection escaping to the caller. -/
def generateStockImagesE (env : StockEnv) (keywords : List String) (source : ImageSource)
    (page : Nat) : Except String (List ImageResult) := do
  let results1 ← jsTry (tryUnsplash env.unsplash) fun _e => .ok []
  let results2 ←
    if results1.length < 5 then do
      let more ← jsTry (tryPixabay (5 - results1.length) env.pixabay) fun _e => .ok []
      pure (results1 ++ more)
    else pure results1
  if results2.length = 0 then
    pure (placeholderResults env.seedBase page keywords source)
  else pure results2

/-! ## Stock search lemmas -/

theorem placeholderResults_length (seedBase page : Nat) (keywords : List String)
    (source : ImageSource) :
    (placeholderResults seedBase page keywords source).length = 4 := by
  simp [placeholderResults]

theorem placeholder_url_ne (x y : String) :
    ("https://loremflickr.com/1280/720/" ++ x ++ "?lock=" ++ y) ≠ "" := by
  intro h
  have h2 := congrArg String.length h
  simp [String.length_append] at h2
  exact absurd h2.1.1.1 (by decide)

/-- When both real providers contribute nothing, the function returns the four
LoremFlickr placeholders. -/
theorem stock_bothZero_eq (env : StockEnv) (keywords : List String) (source : ImageSource)
    (page : Nat) (hu : unsplashYield env.unsplash = [])
    (hp : pixabayYield 5 env.pixabay = []) :
    generateStockImages env keywords source page =
      placeholderResults env.seedBase page keywords source := by
  simp [generateStockImages, realProviderResults, hu, hp]

/-! ## Claim C8: placeholder fallback for a non-empty query -/

/-- C8: for a non-empty keyword list, when both the Unsplash and the Pixabay
attempts contribute zero results, `generateStockImages` returns exactly the 4
synthesized LoremFlickr placeholder references, each with a non-empty URL, so
the caller never receives an empty set; and whenever the real providers
contributed anything, the result is exactly their accumulated list — the
placeholder fallback is taken only when both yield zero. -/
theorem stock_placeholder_fallback (env : StockEnv) (keywords : List String)
    (source : ImageSource) (page : Nat) (hkw : keywords ≠ []) :
    (unsplashYield env.unsplash = [] → pixabayYield 5 env.pixabay = [] →
      (generateStockImages env keywords source page =
          placeholderResults env.seedBase page keywords source ∧
        (generateStockImages env keywords source page).length = 4 ∧
        (generateStockImages env keywords source page).all
          (fun r => r.url != "") = true)) ∧
    (realProviderResults env ≠ [] →
      generateStockImages env keywords source page = realProviderResults env) := by
  constructor
  · intro hu hp
    have he := stock_bothZero_eq env keywords source page hu hp
    refine ⟨he, by rw [he]; exact placeholderResults_length _ _ _ _, ?_⟩
    rw [he, List.all_eq_true]
    intro r hr
    simp only [placeholderResults, List.mem_map, List.mem_range] at hr
    obtain ⟨i, _hi, hri⟩ := hr
    rw [← hri]
    simp only [bne_iff_ne, ne_eq]
    exact placeholder_url_ne _ _
  · intro hne
    simp [generateStockImages, List.length_eq_zero, hne]

/-- Both provider attempts failing with HTTP error statuses. -/
def bothFailEnv : StockEnv :=
  { unsplash := .httpError 403, pixabay := .httpError 429, seedBase := 1000 }

/-- Witness for C8: both providers erroring on the query `["cat"]` still yields
4 placeholder results with non-empty URLs. -/
theorem stock_placeholder_fallback_witness :
    (["cat"] : List String) ≠ [] ∧
    (generateStockImages bothFailEnv ["cat"] ImageSource.STOCK_LIBRARY 1).length = 4 ∧
    (generateStockImages bothFailEnv ["cat"] ImageSource.STOCK_LIBRARY 1).all
      (fun r => r.url != "") = true :=
  ⟨by decide,
   ((stock_placeholder_fallback bothFailEnv ["cat"] ImageSource.STOCK_LIBRARY 1
       (by decide)).1 rfl rfl).2.1,
   ((stock_placeholder_fallback bothFailEnv ["cat"] ImageSource.STOCK_LIBRARY 1
       (by decide)).1 rfl rfl).2.2⟩

/-! ## Claim C9: zero results and the empty query -/

/-- C9 counterexample: for the empty keyword list the computed query is empty,
yet with both providers yielding zero results `generateStockImages` still
returns the 4 placeholders, not the empty list the claim requires for an empty
query. -/
theorem stock_emptyQuery_counterexample :
    stockQuery [] = "" ∧
    generateStockImages bothFailEnv [] ImageSource.STOCK_LIBRARY 1 ≠ [] ∧
    (generateStockImages bothFailEnv [] ImageSource.STOCK_LIBRARY 1).length = 4 := by
  refine ⟨rfl, ?_, rfl⟩
  intro h
  have h4 : (generateStockImages bothFailEnv [] ImageSource.STOCK_LIBRARY 1).length = 4 := rfl
  rw [h] at h4
  exact absurd h4 (by decide)

/-- C9 amended: when both providers yield zero results the returned list is
never empty — it always has exactly 4 placeholder entries — whether or not the
query built from the keyword list is empty; the fallback guard at line 196
checks only `results.length === 0`, never the query. -/
theorem stock_bothZero_never_empty (env : StockEnv) (keywords : List String)
    (source : ImageSource) (page : Nat) (hu : unsplashYield env.unsplash = [])
    (hp : pixabayYield 5 env.pixabay = []) :
    (generateStockImages env keywords source page).length = 4 ∧
    generateStockImages env keywords source page ≠ [] := by
  have he := stock_bothZero_eq env keywords source page hu hp
  rw [he]
  refine ⟨placeholderResults_length _ _ _ _, ?_⟩
  intro h
  have h4 := placeholderResults_length env.seedBase page keywords source
  rw [h] at h4
  exact absurd h4 (by decide)

/-- Witness for the amended C9, at the empty keyword list (empty query). -/
theorem stock_bothZero_never_empty_witness :
    unsplashYield bothFailEnv.unsplash = [] ∧ pixabayYield 5 bothFailEnv.pixabay = [] ∧
    ((generateStockImages bothFailEnv [] ImageSource.STOCK_LIBRARY 1).length = 4 ∧
      generateStockImages bothFailEnv [] ImageSource.STOCK_LIBRARY 1 ≠ []) :=
  ⟨rfl, rfl, stock_bothZero_never_empty bothFailEnv [] ImageSource.STOCK_LIBRARY 1 rfl rfl⟩

/-! ## Claim C10: total at the interface -/

/-- C10: for every keyword list, source, page and every outcome of the two
provider calls — fetch rejection, HTTP error status, `json()` rejection,
missing array field, or data — the exception-explicit `generateStockImages`
resolves with the result list of the pure model and never rejects: each
attempt's failure is consumed by its own `catch` and the next step still runs. -/
theorem generateStockImages_total (env : StockEnv) (keywords : List String)
    (source : ImageSource) (page : Nat) :
    generateStockImagesE env keywords source page =
      .ok (generateStockImages env keywords source page) := by
  unfold generateStockImagesE generateStockImages realProviderResults
    unsplashYield pixabayYield jsTry
  cases htu : tryUnsplash env.unsplash with
  | error e =>
    simp only [bind, Except.bind, List.length_nil, Nat.sub_zero, List.nil_append]
    norm_num
    cases htp : tryPixabay 5 env.pixabay <;>
      simp [bind, Except.bind, pure, Except.pure] <;>
      split <;> rfl
  | ok l =>
    by_cases h5 : l.length < 5
    · simp only [bind, Except.bind, h5, if_true]
      cases htp : tryPixabay (5 - l.length) env.pixabay <;>
        simp [bind, Except.bind, pure, Except.pure, h5] <;>
        split <;> rfl
    · simp [bind, Except.bind, pure, Except.pure, h5]
      split <;> rfl
